import Mathlib

/-!
Verification of the device-monitoring agent (`device-monitoring-agent/agent.py`).

The Python code is shallowly embedded: every network interaction (subprocess
ping, SNMP reads, HTTP requests, backend calls) is modelled as an explicit
*outcome* value handed to the embedded function, and the mutable monitor state
(the per-monitor consecutive-failure counter) is threaded explicitly.
Python dictionaries are modelled as insertion-ordered association lists with
unique keys (`Dict`), numbers as rationals, and Python string operations by
their Lean counterparts.  Wall-clock timestamps (`datetime.now()`) are not
modelled; no claim refers to them.
-/

/-- Python `dict[str, float]`, modelled as an insertion-ordered association
list.  Real Python dictionaries have unique keys; theorems that need this
assume `nodupKeys`. -/
abbrev Dict := List (String × ℚ)

/-- Python `d[k] = v`: overwrite the value of an existing key in place,
otherwise append the new pair at the end. -/
def dictInsert : Dict → String → ℚ → Dict
  | [], k, v => [(k, v)]
  | p :: ds, k, v => if p.1 = k then (k, v) :: ds else p :: dictInsert ds k v

/-- Python `d[k]` / `k in d`: value of the (unique) key `k`, if present. -/
def dictGet (d : Dict) (k : String) : Option ℚ :=
  (d.find? (fun p => p.1 == k)).map Prod.snd

/-- Python `k in d`. -/
def dictContains (d : Dict) (k : String) : Bool :=
  (dictGet d k).isSome

/-- Python `d.get(k, default)`. -/
def dictGetD (d : Dict) (k : String) (default : ℚ) : ℚ :=
  match dictGet d k with
  | some v => v
  | none => default

/-- Python `d.update(e)`: insert every pair of `e`, in order, into `d`. -/
def dictUpdate (d e : Dict) : Dict :=
  e.foldl (fun acc p => dictInsert acc p.1 p.2) d

/-- The keys of a Python dictionary are pairwise distinct. -/
abbrev nodupKeys (d : Dict) : Prop := (d.map Prod.fst).Nodup

/-- First-defined choice on options (`a` if present, else `b`). -/
def orOpt (a b : Option ℚ) : Option ℚ :=
  match a with
  | some v => some v
  | none => b

/-- Does the character list `s` start with `pat`? -/
def charsStartWith : List Char → List Char → Bool
  | _, [] => true
  | [], _ :: _ => false
  | a :: as, b :: bs => a == b && charsStartWith as bs

/-- Does the character list `s` contain `pat` as a contiguous run? -/
def charsContain : List Char → List Char → Bool
  | [], pat => charsStartWith [] pat
  | c :: cs, pat => charsStartWith (c :: cs) pat || charsContain cs pat

/-- Python substring test `sub in s`. -/
def pyIn (sub s : String) : Bool :=
  charsContain s.toList sub.toList

/-- Split a character list at every whitespace character (producing empty
pieces for runs), structurally (fuel-free). -/
def splitWsGo : List Char → List Char → List (List Char)
  | [], acc => [acc.reverse]
  | c :: cs, acc =>
    if c.isWhitespace then acc.reverse :: splitWsGo cs []
    else splitWsGo cs (c :: acc)

/-- Python `str.split()` with no argument: split on whitespace runs,
discarding empty pieces. -/
def pySplit (s : String) : List String :=
  ((splitWsGo s.toList []).filter (fun t => ¬ t.isEmpty)).map
    (fun cs => String.mk cs)

/-- Split a character list on every (non-overlapping, leftmost-first)
occurrence of `sep`; the fuel argument (`s.length + 1` at the top call)
makes the recursion structural so that the kernel can evaluate it. -/
def splitOnGo (sep : List Char) : ℕ → List Char → List Char →
    List (List Char)
  | 0, s, acc => [acc.reverse ++ s]
  | _ + 1, [], acc => [acc.reverse]
  | fuel + 1, c :: cs, acc =>
    if charsStartWith (c :: cs) sep then
      acc.reverse :: splitOnGo sep fuel ((c :: cs).drop sep.length) []
    else splitOnGo sep fuel cs (c :: acc)

/-- Python `s.split(sep)` for a non-empty separator string. -/
def pySplitOn (s sep : String) : List String :=
  if sep.toList.isEmpty then [s]
  else (splitOnGo sep.toList (s.toList.length + 1) s.toList []).map
    (fun cs => String.mk cs)

/-- Replace every occurrence of `pat` by `repl`, leftmost-first. -/
def replaceGo (pat repl : List Char) : ℕ → List Char → List Char
  | 0, s => s
  | _ + 1, [] => []
  | fuel + 1, c :: cs =>
    if charsStartWith (c :: cs) pat then
      repl ++ replaceGo pat repl fuel ((c :: cs).drop pat.length)
    else c :: replaceGo pat repl fuel cs

/-- Python `s.replace(pat, repl)` for a non-empty pattern. -/
def pyReplace (s pat repl : String) : String :=
  if pat.toList.isEmpty then s
  else String.mk (replaceGo pat.toList repl.toList (s.toList.length + 1)
    s.toList)

/-- Drop leading whitespace characters. -/
def dropLeadingWs : List Char → List Char
  | [] => []
  | c :: cs => if c.isWhitespace then dropLeadingWs cs else c :: cs

/-- Python `s.strip()`. -/
def pyTrim (s : String) : String :=
  String.mk ((dropLeadingWs (dropLeadingWs s.toList).reverse).reverse)

/-- Python `s.lower()` (ASCII, as produced by ping/HTTP bodies). -/
def pyLower (s : String) : String :=
  String.mk (s.toList.map Char.toLower)

/-- Python slice `l[i:j]` for lists. -/
def pySlice (l : List String) (i j : ℕ) : List String :=
  (l.drop i).take (j - i)

/-- Python `float(s)` restricted to the decimal forms the agent actually
parses (optional sign, digits, optional fractional part); exponent, `inf`
and `nan` spellings are not modelled, no parsed agent input uses them. -/
def parseNat? (cs : List Char) : Option ℕ :=
  if cs.isEmpty then none
  else cs.foldl
    (fun acc c => acc.bind (fun n =>
      if c.isDigit then some (n * 10 + (c.toNat - '0'.toNat)) else none))
    (some 0)

/-- Python `float(s)` on decimal literals (see `parseNat?`). -/
def parseFloat (s : String) : Option ℚ :=
  let t := (pyTrim s).toList
  let (neg, body) :=
    match t with
    | '-' :: rest => (true, rest)
    | '+' :: rest => (false, rest)
    | _ => (false, t)
  let q? : Option ℚ :=
    match splitOnGo ['.'] (body.length + 1) body [] with
    | [intPart] => (parseNat? intPart).map (fun n => (n : ℚ))
    | [intPart, fracPart] =>
      if intPart.isEmpty && fracPart.isEmpty then none
      else
        let ip? := if intPart.isEmpty then some 0 else parseNat? intPart
        let fp? := if fracPart.isEmpty then some (0, 0)
                   else (parseNat? fracPart).map (fun n => (n, fracPart.length))
        match ip?, fp? with
        | some i, some (f, dcount) => some ((i : ℚ) + (f : ℚ) / ((10 : ℚ) ^ dcount))
        | _, _ => none
    | _ => none
  q?.map (fun q => if neg then -q else q)

/-- `DeviceConfig.__post_init__` default critical thresholds. -/
def default_critical_thresholds : Dict :=
  [("cpu_usage", 90), ("memory_usage", 90), ("response_time", 5000)]

/-- `DeviceConfig.__post_init__` default warning thresholds. -/
def default_warning_thresholds : Dict :=
  [("cpu_usage", 70), ("memory_usage", 75), ("response_time", 2000)]

/-- The fields of `DeviceConfig` the monitoring logic reads.  SNMP/HTTP
connection settings are absorbed into the probe outcome values. -/
structure DeviceConfig where
  id : String
  name : String
  type : String
  ip_address : String
  timeout : ℕ
  critical_thresholds : Dict
  warning_thresholds : Dict
deriving DecidableEq

/-- The mutable per-monitor state of `DeviceMonitor` (`consecutive_failures`
and the constant `max_failures = 3` set in `__init__`). -/
structure MonitorState where
  consecutive_failures : ℕ
  max_failures : ℕ
deriving DecidableEq

/-- `DeviceMonitor.__init__` sets `consecutive_failures = 0`, `max_failures = 3`. -/
def initialMonitorState : MonitorState := ⟨0, 3⟩

/-- `DeviceMetrics` (the per-probe metric sample).  The `timestamp` field
(`datetime.now()`) is not modelled. -/
structure DeviceMetrics where
  device_id : String
  status : String
  metrics : Dict
  response_time : ℚ
  last_error : Option String
  monitoring_method : String
deriving DecidableEq

/-- Python truthiness of the optional error string (`if error:`): `None` and
the empty string are falsy. -/
def truthy : Option String → Bool
  | none => false
  | some s => s ≠ ""

/-- One pass of the threshold loops in `DeviceMonitor.determine_status`:
does any metric present in the threshold map meet or exceed its limit?
The Python loop returns on the first breach; since every breach yields the
same status string, the loop is equivalent to this existence test. -/
def thresholdBreach (thresholds : Dict) (metrics : Dict) : Bool :=
  metrics.any (fun p =>
    match dictGet thresholds p.1 with
    | some t => decide (t ≤ p.2)
    | none => false)

/-- `DeviceMonitor.determine_status` (agent.py lines 129-157): the status
classifier, with the mutated `consecutive_failures` counter returned as the
second component. -/
def determine_status (cfg : DeviceConfig) (st : MonitorState) (metrics : Dict)
    (response_time : ℚ) (error : Option String) : String × MonitorState :=
  if truthy error then
    let st' : MonitorState := ⟨st.consecutive_failures + 1, st.max_failures⟩
    if st'.consecutive_failures ≥ st.max_failures then ("offline", st')
    else ("warning", st')
  else
    let st' : MonitorState := ⟨0, st.max_failures⟩
    if thresholdBreach cfg.critical_thresholds metrics then ("critical", st')
    else if thresholdBreach cfg.warning_thresholds metrics then ("warning", st')
    else if dictGetD cfg.critical_thresholds "response_time" 5000 ≤ response_time then
      ("critical", st')
    else if dictGetD cfg.warning_thresholds "response_time" 2000 ≤ response_time then
      ("warning", st')
    else ("online", st')

/-- The possible outcomes of the ping subprocess awaited in
`PingMonitor.check_device`: exit code 0 with the decoded stdout text,
non-zero exit with the decoded stderr text, `asyncio.TimeoutError`, or any
other exception with its message. -/
inductive PingOutcome where
  | success (stdoutText : String)
  | failure (stderrText : String)
  | timeout
  | exc (msg : String)
deriving DecidableEq

namespace PingMonitor

/-- Body of the first loop of `PingMonitor._parse_ping_output`: extract the
round-trip time from the first line containing `time=`.  `Except` models the
`IndexError`/`ValueError` caught by the enclosing `try`. -/
def parseTimeFromLine (line : String) : Except Unit ℚ :=
  match (pySplitOn line "time=").get? 1 with
  | none => .error ()
  | some timePart =>
    match (pySplit timePart).head? with
    | none => .error ()
    | some tok =>
      match parseFloat (pyReplace tok "ms" "") with
      | none => .error ()
      | some q => .ok q

/-- Inner scan of the packet-loss loop: the first token containing `%` whose
two following tokens include `packet` or `loss` carries the loss percentage;
a `float` failure there raises (`Except.error`).  `suffix` is the not yet
visited tail of `parts` starting at index `i` (structural recursion, so the
kernel can evaluate it). -/
def lossScanGo (parts : List String) : ℕ → List String →
    Except Unit (Option ℚ)
  | _, [] => .ok none
  | i, part :: rest =>
    if pyIn "%" part &&
        ((pySlice parts (i+1) (i+3)).contains "packet" ||
         (pySlice parts (i+1) (i+3)).contains "loss") then
      match parseFloat (pyReplace part "%" "") with
      | none => .error ()
      | some q => .ok (some q)
    else lossScanGo parts (i + 1) rest

/-- Second loop of `_parse_ping_output`: find the first line containing
`% packet loss` or `% loss` and scan its whitespace-split tokens. -/
def lossPhase (lines : List String) : Except Unit ℚ :=
  match lines.find? (fun l => pyIn "% packet loss" l || pyIn "% loss" l) with
  | none => .ok 100
  | some line =>
    match lossScanGo (pySplit line) 0 (pySplit line) with
    | .error _ => .error ()
    | .ok none => .ok 100
    | .ok (some q) => .ok q

/-- `PingMonitor._parse_ping_output` (agent.py lines 230-258): returns
`(response_time, packet_loss)`; a caught `ValueError`/`IndexError` aborts the
whole parse and keeps the values accumulated so far. -/
def parse_ping_output (output : String) : ℚ × ℚ :=
  let lines := pySplitOn output "\n"
  let step1 : Except Unit ℚ :=
    match lines.find? (fun l => pyIn "time=" (pyLower l)) with
    | none => .ok 0
    | some line => parseTimeFromLine line
  match step1 with
  | .error _ => (0, 100)
  | .ok rt =>
    match lossPhase lines with
    | .error _ => (rt, 100)
    | .ok pl => (rt, pl)

/-- `PingMonitor.check_device` (agent.py lines 162-228).  `wallMs` is the
wall-clock duration `(time.time() - start_time) * 1000` measured for the
subprocess; the network interaction itself is the `PingOutcome`. -/
def check_device (cfg : DeviceConfig) (st : MonitorState) (o : PingOutcome)
    (wallMs : ℚ) : DeviceMetrics × MonitorState :=
  let (metrics, response_time, error) :=
    match o with
    | .success stdoutText =>
      let (parsed_time, packet_loss) := parse_ping_output stdoutText
      let rt := if parsed_time > 0 then parsed_time else wallMs
      ([("latency", rt), ("packet_loss", packet_loss),
        ("uptime", if packet_loss < 100 then (100 : ℚ) else 0)],
       rt, (none : Option String))
    | .failure stderrText =>
      ([("latency", 0), ("packet_loss", 100), ("uptime", 0)],
       wallMs, some ("Ping failed: " ++ pyTrim stderrText))
    | .timeout =>
      ([("latency", 0), ("packet_loss", 100), ("uptime", 0)],
       (cfg.timeout : ℚ) * 1000,
       some ("Ping timeout after " ++ toString cfg.timeout ++ " seconds"))
    | .exc msg =>
      ([("latency", 0), ("packet_loss", 100), ("uptime", 0)],
       (cfg.timeout : ℚ) * 1000, some ("Ping error: " ++ msg))
  let (status, st') := determine_status cfg st metrics response_time error
  (⟨cfg.id, status, metrics, response_time, error, "ping"⟩, st')

end PingMonitor

/-- Outcomes of an invocation classified as a probe failure (non-zero exit,
timeout, exception); `success` is the only non-failure outcome. -/
def pingFailureOutcome : PingOutcome → Bool
  | .success _ => false
  | .failure _ => true
  | .timeout => true
  | .exc _ => true

namespace SNMPMonitor

/-- The static per-device-type default table of
`SNMPMonitor._add_default_metrics` (agent.py lines 489-517). -/
def device_defaults (deviceType : String) : Dict :=
  if deviceType = "router" then
    [("cpu_usage", 25), ("interface_bandwidth", 80), ("routing_table_changes", 5),
     ("packet_loss", 1/10), ("latency", 15), ("uptime", 199/2)]
  else if deviceType = "switch" then
    [("port_status", 95), ("traffic_per_port", 60), ("broadcast_storms", 2),
     ("mac_table_size", 70), ("error_packets", 10), ("uptime", 499/5)]
  else if deviceType = "firewall" then
    [("active_sessions", 150), ("blocked_traffic", 25), ("vpn_tunnels", 8),
     ("cpu_usage", 30), ("memory_usage", 40), ("threat_detection", 12),
     ("uptime", 999/10)]
  else []

/-- `SNMPMonitor._add_default_metrics`: fill every still-missing key of the
type's default table into the metric map. -/
def add_default_metrics (deviceType : String) (metrics : Dict) : Dict :=
  (device_defaults deviceType).foldl
    (fun m p => if dictContains m p.1 then m else dictInsert m p.1 p.2) metrics

/-- Outcome of the SNMP gathering phase of `SNMPMonitor.check_device`
(lines 301-321) when SNMP support is available: either the merged metric map
produced by `_get_system_metrics`, the type-specific getters and
`_get_interface_metrics` (individual read failures are swallowed inside
those helpers, so they can only shrink this map), or an exception escaping
the gathering, caught at line 323. -/
inductive SnmpOutcome where
  | gathered (metrics : Dict)
  | exc (msg : String)
deriving DecidableEq

/-- `SNMPMonitor.check_device` (agent.py lines 293-342), SNMP-available path
(`SNMP_AVAILABLE = True`).  `wallMs` is the measured gathering duration in
milliseconds. -/
def check_device_snmp (cfg : DeviceConfig) (st : MonitorState)
    (o : SnmpOutcome) (wallMs : ℚ) : DeviceMetrics × MonitorState :=
  let (rawMetrics, response_time, error) :=
    match o with
    | .gathered m => (m, wallMs, (none : Option String))
    | .exc msg => (([] : Dict), (cfg.timeout : ℚ) * 1000,
                   some ("SNMP monitoring failed: " ++ msg))
  let metrics := add_default_metrics cfg.type rawMetrics
  let (status, st') := determine_status cfg st metrics response_time error
  (⟨cfg.id, status, metrics, response_time, error, "snmp"⟩, st')

/-- `SNMPMonitor._fallback_to_ping` (agent.py lines 482-487), taken by
`check_device` when `SNMP_AVAILABLE` is false: a *freshly constructed*
`PingMonitor(self.config)` (whose `consecutive_failures` counter is 0 by
`DeviceMonitor.__init__`) performs the check and the result is re-tagged
`snmp_fallback_ping`.  The SNMP monitor's own counter is not touched. -/
def fallback_to_ping (cfg : DeviceConfig) (o : PingOutcome) (wallMs : ℚ) :
    DeviceMetrics :=
  let r := (PingMonitor.check_device cfg initialMonitorState o wallMs).1
  { r with monitoring_method := "snmp_fallback_ping" }

end SNMPMonitor

/-- JSON values as far as `HTTPMonitor._parse_http_response` inspects them:
numbers, strings and nested objects.  (`float()` on a string re-parses it;
on a dict it raises, modelled by `jFloat = none`.) -/
inductive JVal where
  | num (q : ℚ)
  | str (s : String)
  | obj (fields : List (String × JVal))

/-- Key lookup in a decoded JSON object. -/
def jLookup (fields : List (String × JVal)) (k : String) : Option JVal :=
  (fields.find? (fun p => p.1 == k)).map Prod.snd

/-- Python `float(v)` on a decoded JSON value: numbers pass through, strings
are re-parsed, anything else raises (`none`). -/
def jFloat : JVal → Option ℚ
  | .num q => some q
  | .str s => parseFloat s
  | .obj _ => none

namespace HTTPMonitor

/-- The `field_mappings` table of `_parse_http_response` (agent.py lines
583-595), in Python dict insertion order. -/
def field_mappings : List (String × String) :=
  [("cpu", "cpu_usage"), ("cpu_usage", "cpu_usage"), ("cpu_percent", "cpu_usage"),
   ("memory", "memory_usage"), ("memory_usage", "memory_usage"),
   ("memory_percent", "memory_usage"), ("uptime", "uptime"),
   ("temperature", "temperature"), ("temp", "temperature"),
   ("load", "cpu_load"), ("load_avg", "cpu_load")]

/-- `HTTPMonitor._parse_http_response` (agent.py lines 578-623).  The common
field-mapping loop swallows conversion failures; the router/firewall-specific
conversions are *not* wrapped in `try`, so their `float` failures raise out
of the function (`Except.error`), to be caught by `check_device`. -/
def parse_http_response (deviceType : String) (data : List (String × JVal)) :
    Except Unit Dict :=
  let base := field_mappings.foldl
    (fun m p =>
      match jLookup data p.1 with
      | none => m
      | some v =>
        match jFloat v with
        | none => m
        | some q => dictInsert m p.2 q) []
  if deviceType = "router" then
    let step1 : Except Unit Dict :=
      match jLookup data "interfaces" with
      | some (.obj ifs) =>
        match jLookup ifs "utilization" with
        | none => .ok base
        | some v =>
          match jFloat v with
          | none => .error ()
          | some q => .ok (dictInsert base "interface_bandwidth" q)
      | _ => .ok base
    match step1 with
    | .error _ => .error ()
    | .ok m1 =>
      match jLookup data "routing" with
      | some (.obj routing) =>
        match jLookup routing "changes" with
        | none => .ok m1
        | some v =>
          match jFloat v with
          | none => .error ()
          | some q => .ok (dictInsert m1 "routing_table_changes" q)
      | _ => .ok m1
  else if deviceType = "firewall" then
    let put (m : Except Unit Dict) (apiField metricName : String) :
        Except Unit Dict :=
      match m with
      | .error _ => .error ()
      | .ok mm =>
        match jLookup data apiField with
        | none => .ok mm
        | some v =>
          match jFloat v with
          | none => .error ()
          | some q => .ok (dictInsert mm metricName q)
    put (put (put (.ok base) "sessions" "active_sessions")
         "blocked" "blocked_traffic") "vpn" "vpn_tunnels"
  else .ok base

/-- Per-line body of `HTTPMonitor._parse_text_response` (agent.py lines
625-646): the stripped, lowered line feeds `cpu_usage` or `memory_usage`;
`float` failures are swallowed. -/
def parseTextLine (m : Dict) (rawLine : String) : Dict :=
  let line := pyLower (pyTrim rawLine)
  if pyIn "cpu:" line || pyIn "cpu usage:" line then
    match (pySplitOn line ":").get? 1 with
    | none => m
    | some v =>
      match parseFloat (pyReplace (pyTrim v) "%" "") with
      | none => m
      | some q => dictInsert m "cpu_usage" q
  else if pyIn "memory:" line || pyIn "memory usage:" line then
    match (pySplitOn line ":").get? 1 with
    | none => m
    | some v =>
      match parseFloat (pyReplace (pyTrim v) "%" "") with
      | none => m
      | some q => dictInsert m "memory_usage" q
  else m

/-- `HTTPMonitor._parse_text_response`. -/
def parse_text_response (text : String) : Dict :=
  (pySplitOn text "\n").foldl parseTextLine []

/-- The body handed back for a 200 response: a decoded JSON object, or
(after `json.JSONDecodeError`) the plain response text. -/
inductive HttpBody where
  | json (fields : List (String × JVal))
  | text (s : String)

/-- Outcomes of the HTTP GET in `HTTPMonitor.check_device`: a response with
its status code, reason phrase and body; `asyncio.TimeoutError`; or any
other exception with its message. -/
inductive HttpOutcome where
  | response (status : ℕ) (reason : String) (body : HttpBody)
  | timeout
  | exc (msg : String)

/-- `HTTPMonitor.check_device` (agent.py lines 527-576).  `wallMs` is the
measured request duration; a parse exception raised by
`_parse_http_response` escapes to the generic handler at line 562, which
overwrites the response time with `timeout * 1000` and leaves the metric map
empty (the assignment at line 551 never happened). -/
def check_device (cfg : DeviceConfig) (st : MonitorState) (o : HttpOutcome)
    (wallMs : ℚ) : DeviceMetrics × MonitorState :=
  let (metrics, response_time, error) :=
    match o with
    | .response status reason body =>
      if status = 200 then
        match body with
        | .json fields =>
          match parse_http_response cfg.type fields with
          | .ok m => (m, wallMs, (none : Option String))
          | .error _ =>
            (([] : Dict), (cfg.timeout : ℚ) * 1000,
             some "HTTP monitoring failed: could not convert value to float")
        | .text s => (parse_text_response s, wallMs, (none : Option String))
      else
        (([] : Dict), wallMs,
         some ("HTTP " ++ toString status ++ ": " ++ reason))
    | .timeout =>
      (([] : Dict), (cfg.timeout : ℚ) * 1000,
       some ("HTTP request timeout after " ++ toString cfg.timeout ++ " seconds"))
    | .exc msg =>
      (([] : Dict), (cfg.timeout : ℚ) * 1000,
       some ("HTTP monitoring failed: " ++ msg))
  let (status, st') := determine_status cfg st metrics response_time error
  (⟨cfg.id, status, metrics, response_time, error, "http"⟩, st')

end HTTPMonitor

/-- HTTP outcomes the claims classify as failures: transport errors
(timeout or exception) and responses with a status code outside 2xx. -/
def httpFailureOutcome : HTTPMonitor.HttpOutcome → Bool
  | .response status _ _ => decide (status < 200) || decide (300 ≤ status)
  | .timeout => true
  | .exc _ => true

/-- Instrumented result of one `APIClient` operation: the Python return
value, the number of HTTP requests issued, the number of
`asyncio.sleep(retry_delay)` calls, and the number of `authenticate()`
calls made inside the operation. -/
structure ClientResult where
  ok : Bool
  attempts : ℕ
  sleeps : ℕ
  reauths : ℕ
deriving DecidableEq

namespace APIClient

/-- Outcome of one `GET /devices` request: a response with status code and
decoded device list (device records abbreviated to their ids), or an
exception. -/
inductive GetOutcome where
  | resp (status : ℕ) (body : List String)
  | exc (msg : String)
deriving DecidableEq

/-- `APIClient.get_devices` (agent.py lines 710-726): a *single* request; a
non-200 response or an exception is logged and an empty list returned.  The
function consumes the first element of the outcome stream; the second
component counts the requests issued (always 1 when an outcome exists). -/
def get_devices : List GetOutcome → List String × ℕ
  | [] => ([], 0)
  | o :: _ =>
    match o with
    | .resp status body => if status = 200 then (body, 1) else ([], 1)
    | .exc _ => ([], 1)

/-- Outcome of one `POST /devices` request. -/
inductive CreateOutcome where
  | resp (status : ℕ)
  | exc (msg : String)
deriving DecidableEq

/-- Retry loop of `APIClient.create_device` (agent.py lines 732-753),
starting at loop index `attempt`, consuming one outcome per request:
200 returns `True`; any other response returns `False` immediately; an
exception sleeps `retry_delay` (when `attempt < retry_attempts - 1`) and
retries. -/
def createGo (retry_attempts : ℕ) : ℕ → List CreateOutcome → ClientResult
  | _, [] => ⟨false, 0, 0, 0⟩
  | attempt, o :: rest =>
    if attempt < retry_attempts then
      match o with
      | .resp status =>
        if status = 200 then ⟨true, 1, 0, 0⟩
        else ⟨false, 1, 0, 0⟩
      | .exc _ =>
        let r := createGo retry_attempts (attempt + 1) rest
        ⟨r.ok, r.attempts + 1,
         r.sleeps + (if attempt < retry_attempts - 1 then 1 else 0), r.reauths⟩
    else ⟨false, 0, 0, 0⟩

/-- `APIClient.create_device`: the retry loop from attempt 0. -/
def create_device (retry_attempts : ℕ) (outcomes : List CreateOutcome) :
    ClientResult :=
  createGo retry_attempts 0 outcomes

/-- Outcome of one `PUT /devices/{id}` request. -/
inductive UpdOutcome where
  | resp (status : ℕ)
  | exc (msg : String)
deriving DecidableEq

/-- Retry loop of `APIClient.update_device` (agent.py lines 759-782):
200 returns `True`; 401 calls `authenticate()` and `continue`s (consuming
the attempt, no delay); any other response returns `False` immediately; an
exception sleeps `retry_delay` (when `attempt < retry_attempts - 1`) and
retries.  `_ensure_authenticated` at entry is modelled as a no-op (cached
valid token), so `reauths` counts exactly the 401-triggered
`authenticate()` calls. -/
def updateGo (retry_attempts : ℕ) : ℕ → List UpdOutcome → ClientResult
  | _, [] => ⟨false, 0, 0, 0⟩
  | attempt, o :: rest =>
    if attempt < retry_attempts then
      match o with
      | .resp status =>
        if status = 200 then ⟨true, 1, 0, 0⟩
        else if status = 401 then
          let r := updateGo retry_attempts (attempt + 1) rest
          ⟨r.ok, r.attempts + 1, r.sleeps, r.reauths + 1⟩
        else ⟨false, 1, 0, 0⟩
      | .exc _ =>
        let r := updateGo retry_attempts (attempt + 1) rest
        ⟨r.ok, r.attempts + 1,
         r.sleeps + (if attempt < retry_attempts - 1 then 1 else 0), r.reauths⟩
    else ⟨false, 0, 0, 0⟩

/-- `APIClient.update_device`: the retry loop from attempt 0. -/
def update_device (retry_attempts : ℕ) (outcomes : List UpdOutcome) :
    ClientResult :=
  updateGo retry_attempts 0 outcomes

end APIClient

/-- The `status_priority` table of `DeviceAgent.combine_monitoring_results`
(agent.py line 1030), with the Python `.get(status, 3)` default for unknown
statuses. -/
def statusPriority (s : String) : ℕ :=
  if s = "offline" then 0
  else if s = "critical" then 1
  else if s = "warning" then 2
  else if s = "online" then 3
  else 3

/-- Python `min(results, key=f)`: keep the current element unless a later
one has a *strictly* smaller key, so the first minimal element wins. -/
def pyMinBy (f : DeviceMetrics → ℕ) : DeviceMetrics → List DeviceMetrics →
    DeviceMetrics
  | best, [] => best
  | best, r :: rs => if f r < f best then pyMinBy f r rs else pyMinBy f best rs

/-- Python truthiness filter in `[r.last_error for r in results if r.last_error]`. -/
def collectErrors (results : List DeviceMetrics) : List String :=
  results.filterMap (fun r =>
    match r.last_error with
    | some s => if s = "" then none else some s
    | none => none)

/-- `DeviceAgent.combine_monitoring_results` (agent.py lines 1016-1048):
merge the per-probe samples of one poll cycle (given in configured probe
order) into one combined sample, or `none` when the input list is empty. -/
def combine_monitoring_results (results : List DeviceMetrics) :
    Option DeviceMetrics :=
  match results with
  | [] => none
  | first :: rest =>
    let all_metrics := (first :: rest).foldl
      (fun acc r => dictUpdate acc r.metrics) []
    let worst := pyMinBy (fun r => statusPriority r.status) first rest
    let avg := ((first :: rest).foldl (fun s r => s + r.response_time) 0) /
      (((first :: rest).length : ℚ))
    let errors := collectErrors (first :: rest)
    let combined_error := if errors.isEmpty then none
      else some (String.intercalate "; " errors)
    some ⟨first.device_id, worst.status, all_metrics, avg, combined_error,
      "combined"⟩

/-- The four status strings the spec's total order ranges over. -/
def validStatus (s : String) : Bool :=
  s == "offline" || s == "critical" || s == "warning" || s == "online"

/-- The minimal (worst) status rank among a non-empty sample list, written
as the fold Python's `min` computes. -/
def minRankOf (r : DeviceMetrics) (rs : List DeviceMetrics) : ℕ :=
  rs.foldl (fun m x => min m (statusPriority x.status))
    (statusPriority r.status)

theorem dictGet_nil (k : String) : dictGet [] k = none := rfl

theorem dictGet_cons (p : String × ℚ) (ds : Dict) (k : String) :
    dictGet (p :: ds) k = if p.1 = k then some p.2 else dictGet ds k := by
  by_cases h : p.1 = k
  · simp [dictGet, List.find?_cons_of_pos, h]
  · simp only [dictGet, List.find?]
    have hb : (p.1 == k) = false := by
      simpa using h
    simp [hb, h]

theorem dictGet_dictInsert (d : Dict) (k' : String) (v' : ℚ) (k : String) :
    dictGet (dictInsert d k' v') k =
      if k' = k then some v' else dictGet d k := by
  induction d with
  | nil => simp [dictInsert, dictGet_cons, dictGet_nil]
  | cons p ds ih =>
    by_cases hp : p.1 = k'
    · rw [show dictInsert (p :: ds) k' v' = (k', v') :: ds from by
        simp [dictInsert, hp]]
      rw [dictGet_cons, dictGet_cons]
      by_cases hk : k' = k
      · rw [if_pos hk, if_pos hk]
      · rw [if_neg hk, if_neg hk, if_neg (fun h => hk (hp ▸ h))]
    · rw [show dictInsert (p :: ds) k' v' = p :: dictInsert ds k' v' from by
        simp [dictInsert, hp]]
      rw [dictGet_cons, ih]
      by_cases hk : k' = k
      · rw [if_neg (fun h => hp (h.trans hk.symm)), if_pos hk, if_pos hk]
      · rw [if_neg hk, if_neg hk, ← dictGet_cons]

theorem dictGet_eq_none_of_not_mem (e : Dict) (k : String)
    (h : k ∉ e.map Prod.fst) : dictGet e k = none := by
  induction e with
  | nil => rfl
  | cons p ds ih =>
    simp only [List.map_cons, List.mem_cons, not_or] at h
    rw [dictGet_cons, if_neg (fun hh => h.1 hh.symm)]
    exact ih h.2

theorem dictGet_dictUpdate (d e : Dict) (k : String) (he : nodupKeys e) :
    dictGet (dictUpdate d e) k = orOpt (dictGet e k) (dictGet d k) := by
  induction e generalizing d with
  | nil => simp [dictUpdate, orOpt, dictGet_nil]
  | cons p e' ih =>
    have he' : nodupKeys e' := by
      have := he
      simp only [nodupKeys, List.map_cons, List.nodup_cons] at this
      exact this.2
    have hp : p.1 ∉ e'.map Prod.fst := by
      have := he
      simp only [nodupKeys, List.map_cons, List.nodup_cons] at this
      exact this.1
    have hstep : dictUpdate d (p :: e') = dictUpdate (dictInsert d p.1 p.2) e' := by
      simp [dictUpdate]
    rw [hstep, ih _ he', dictGet_cons, dictGet_dictInsert]
    by_cases hk : p.1 = k
    · rw [if_pos hk, if_pos hk]
      have : dictGet e' k = none := dictGet_eq_none_of_not_mem e' k (hk ▸ hp)
      simp [this, orOpt]
    · rw [if_neg hk, if_neg hk]

theorem orOpt_none_right (a : Option ℚ) : orOpt a none = a := by
  cases a <;> rfl

theorem orOpt_assoc (a b c : Option ℚ) :
    orOpt (orOpt a b) c = orOpt a (orOpt b c) := by
  cases a <;> rfl

theorem findSome?_append (l₁ l₂ : List DeviceMetrics)
    (f : DeviceMetrics → Option ℚ) :
    (l₁ ++ l₂).findSome? f = orOpt (l₁.findSome? f) (l₂.findSome? f) := by
  induction l₁ with
  | nil => simp [orOpt]
  | cons a l ih =>
    simp only [List.cons_append, List.findSome?_cons]
    cases f a <;> simp [orOpt, ih]

theorem dictGet_fold_update (rs : List DeviceMetrics) (d : Dict) (k : String)
    (h : ∀ x ∈ rs, nodupKeys x.metrics) :
    dictGet (rs.foldl (fun acc r => dictUpdate acc r.metrics) d) k =
      orOpt (rs.reverse.findSome? (fun r => dictGet r.metrics k)) (dictGet d k) := by
  induction rs generalizing d with
  | nil => simp [orOpt]
  | cons r rs ih =>
    simp only [List.foldl_cons, List.reverse_cons]
    rw [ih _ (fun x hx => h x (List.mem_cons_of_mem _ hx)),
        dictGet_dictUpdate _ _ _ (h r (List.mem_cons_self _ _)),
        findSome?_append, orOpt_assoc]
    simp [List.findSome?_cons, orOpt_none_right]
    cases dictGet r.metrics k <;> simp [orOpt]

theorem any_reverse (l : List DeviceMetrics) (p : DeviceMetrics → Bool) :
    l.reverse.any p = l.any p := by
  induction l with
  | nil => rfl
  | cons a l ih =>
    rw [List.reverse_cons, List.any_append, ih, List.any_cons]
    simp [Bool.or_comm]

theorem isSome_findSome? (l : List DeviceMetrics) (f : DeviceMetrics → Option ℚ) :
    (l.findSome? f).isSome = l.any (fun x => (f x).isSome) := by
  induction l with
  | nil => rfl
  | cons a l ih =>
    rw [List.findSome?_cons, List.any_cons]
    cases f a <;> simp [ih]

theorem foldl_min_le_init (f : DeviceMetrics → ℕ) (rs : List DeviceMetrics)
    (a : ℕ) : rs.foldl (fun m x => min m (f x)) a ≤ a := by
  induction rs generalizing a with
  | nil => exact le_refl a
  | cons r rs ih =>
    exact le_trans (ih (min a (f r))) (min_le_left _ _)

theorem foldl_min_le_mem (f : DeviceMetrics → ℕ) (rs : List DeviceMetrics)
    (x : DeviceMetrics) :
    ∀ a : ℕ, x ∈ rs → rs.foldl (fun m y => min m (f y)) a ≤ f x := by
  induction rs with
  | nil => intro a hx; cases hx
  | cons r rs ih =>
    intro a hx
    rcases List.mem_cons.mp hx with h | h
    · subst h
      exact le_trans (foldl_min_le_init f rs _) (min_le_right _ _)
    · exact ih _ h

theorem pyMinBy_key (f : DeviceMetrics → ℕ) (best : DeviceMetrics)
    (rs : List DeviceMetrics) :
    f (pyMinBy f best rs) = rs.foldl (fun m x => min m (f x)) (f best) := by
  induction rs generalizing best with
  | nil => rfl
  | cons r rs ih =>
    simp only [pyMinBy, List.foldl_cons]
    by_cases h : f r < f best
    · rw [if_pos h, ih, min_eq_right (le_of_lt h)]
    · rw [if_neg h, ih, min_eq_left (le_of_not_lt h)]

theorem find?_first_min (f : DeviceMetrics → ℕ) (best : DeviceMetrics)
    (rs : List DeviceMetrics) :
    (best :: rs).find?
        (fun x => f x == rs.foldl (fun m y => min m (f y)) (f best)) =
      some (pyMinBy f best rs) := by
  induction rs generalizing best with
  | nil =>
    simp [List.find?, pyMinBy]
  | cons r rs ih =>
    simp only [List.foldl_cons, pyMinBy]
    by_cases h : f r < f best
    · rw [min_eq_right (le_of_lt h), if_pos h]
      have hM : rs.foldl (fun m y => min m (f y)) (f r) ≤ f r :=
        foldl_min_le_init f rs _
      have hbest : ¬ (f best == rs.foldl (fun m y => min m (f y)) (f r)) = true := by
        simp only [beq_iff_eq]
        omega
      rw [List.find?_cons_of_neg _ (by simpa using hbest)]
      exact ih r
    · rw [min_eq_left (le_of_not_lt h), if_neg h]
      have hM : rs.foldl (fun m y => min m (f y)) (f best) ≤ f best :=
        foldl_min_le_init f rs _
      have hiha := ih best
      by_cases hb : f best = rs.foldl (fun m y => min m (f y)) (f best)
      · rw [List.find?_cons_of_pos _ (by simpa using hb)]
        rw [List.find?_cons_of_pos _ (by simpa using hb)] at hiha
        exact hiha
      · rw [List.find?_cons_of_neg _ (by simpa using hb)]
        rw [List.find?_cons_of_neg _ (by simpa using hb)] at hiha
        have hr : ¬ (f r == rs.foldl (fun m y => min m (f y)) (f best)) = true := by
          simp only [beq_iff_eq]
          intro heq
          have hle : f best ≤ f r := le_of_not_lt h
          omega
        rw [List.find?_cons_of_neg _ (by simpa using hr)]
        exact hiha

theorem pyMinBy_mem (f : DeviceMetrics → ℕ) (best : DeviceMetrics)
    (rs : List DeviceMetrics) : pyMinBy f best rs ∈ best :: rs := by
  induction rs generalizing best with
  | nil => exact List.mem_cons_self _ _
  | cons r rs ih =>
    simp only [pyMinBy]
    by_cases h : f r < f best
    · rw [if_pos h]
      exact List.mem_cons_of_mem _ (ih r)
    · rw [if_neg h]
      rcases List.mem_cons.mp (ih best) with hh | hh
      · rw [hh]; exact List.mem_cons_self _ _
      · exact List.mem_cons_of_mem _ (List.mem_cons_of_mem _ hh)

theorem determine_status_error (cfg : DeviceConfig) (st : MonitorState)
    (m : Dict) (rt : ℚ) (e : String) (he : e ≠ "") :
    determine_status cfg st m rt (some e) =
      (if st.consecutive_failures + 1 ≥ st.max_failures then "offline"
       else "warning",
       ⟨st.consecutive_failures + 1, st.max_failures⟩) := by
  have ht : truthy (some e) = true := by simp [truthy, he]
  simp only [determine_status, ht, if_true]
  split <;> rfl

theorem determine_status_reset (cfg : DeviceConfig) (st : MonitorState)
    (m : Dict) (rt : ℚ) :
    (determine_status cfg st m rt none).2 = ⟨0, st.max_failures⟩ := by
  have ht : truthy none = false := rfl
  simp only [determine_status, ht, Bool.false_eq_true, if_false]
  split_ifs <;> rfl

theorem noerror_status_ne_offline (cfg : DeviceConfig) (st : MonitorState)
    (m : Dict) (rt : ℚ) (e : Option String) (ht : truthy e = false) :
    (determine_status cfg st m rt e).1 ≠ "offline" := by
  simp only [determine_status, ht, Bool.false_eq_true, if_false]
  split_ifs <;> simp

theorem fresh_status_ne_offline (cfg : DeviceConfig) (m : Dict) (rt : ℚ)
    (e : Option String) :
    (determine_status cfg initialMonitorState m rt e).1 ≠ "offline" := by
  by_cases ht : truthy e = true
  · simp only [determine_status, ht, if_true, initialMonitorState]
    norm_num
    decide
  · exact noerror_status_ne_offline cfg _ m rt e (Bool.not_eq_true _ ▸ ht)

namespace APIClient

theorem createGo_all_exc (msgs : List String) :
    ∀ (ra a : ℕ), a + msgs.length = ra →
      createGo ra a (msgs.map CreateOutcome.exc) =
        ⟨false, msgs.length, msgs.length - 1, 0⟩ := by
  induction msgs with
  | nil =>
    intro ra a h
    rfl
  | cons m ms ih =>
    intro ra a h
    simp only [List.length_cons] at h
    have ha : a < ra := by omega
    simp only [List.map_cons, createGo, if_pos ha]
    rw [ih ra (a + 1) (by omega)]
    rcases ms with _ | ⟨m2, ms2⟩
    · have hnot : ¬ a < ra - 1 := by
        simp only [List.length_nil] at h
        omega
      simp [hnot]
    · have hlt : a < ra - 1 := by
        simp only [List.length_cons] at h
        omega
      simp [hlt, ClientResult.mk.injEq, List.length_cons]

theorem createGo_success_after (msgs : List String) :
    ∀ (ra a : ℕ) (rest : List CreateOutcome), a + msgs.length < ra →
      createGo ra a (msgs.map CreateOutcome.exc ++ CreateOutcome.resp 200 :: rest) =
        ⟨true, msgs.length + 1, msgs.length, 0⟩ := by
  induction msgs with
  | nil =>
    intro ra a rest h
    simp only [List.map_nil, List.nil_append, List.length_nil]
    simp only [createGo, if_pos (by omega : a < ra)]
    rfl
  | cons m ms ih =>
    intro ra a rest h
    simp only [List.length_cons] at h
    have ha : a < ra := by omega
    simp only [List.map_cons, List.cons_append, createGo, if_pos ha,
      List.append_eq]
    rw [ih ra (a + 1) rest (by omega)]
    have hlt : a < ra - 1 := by omega
    simp [hlt, ClientResult.mk.injEq, List.length_cons]

theorem createGo_immediate_failure (ra : ℕ) (s : ℕ) (rest : List CreateOutcome)
    (hra : 0 < ra) (hs : s ≠ 200) :
    createGo ra 0 (CreateOutcome.resp s :: rest) = ⟨false, 1, 0, 0⟩ := by
  simp only [createGo, if_pos hra, if_neg hs]

theorem updateGo_all_exc (msgs : List String) :
    ∀ (ra a : ℕ), a + msgs.length = ra →
      updateGo ra a (msgs.map UpdOutcome.exc) =
        ⟨false, msgs.length, msgs.length - 1, 0⟩ := by
  induction msgs with
  | nil =>
    intro ra a h
    rfl
  | cons m ms ih =>
    intro ra a h
    simp only [List.length_cons] at h
    have ha : a < ra := by omega
    simp only [List.map_cons, updateGo, if_pos ha]
    rw [ih ra (a + 1) (by omega)]
    rcases ms with _ | ⟨m2, ms2⟩
    · have hnot : ¬ a < ra - 1 := by
        simp only [List.length_nil] at h
        omega
      simp [hnot]
    · have hlt : a < ra - 1 := by
        simp only [List.length_cons] at h
        omega
      simp [hlt, ClientResult.mk.injEq, List.length_cons]

theorem updateGo_success_after (msgs : List String) :
    ∀ (ra a : ℕ) (rest : List UpdOutcome), a + msgs.length < ra →
      updateGo ra a (msgs.map UpdOutcome.exc ++ UpdOutcome.resp 200 :: rest) =
        ⟨true, msgs.length + 1, msgs.length, 0⟩ := by
  induction msgs with
  | nil =>
    intro ra a rest h
    simp only [List.map_nil, List.nil_append, List.length_nil]
    simp only [updateGo, if_pos (by omega : a < ra)]
    rfl
  | cons m ms ih =>
    intro ra a rest h
    simp only [List.length_cons] at h
    have ha : a < ra := by omega
    simp only [List.map_cons, List.cons_append, updateGo, if_pos ha,
      List.append_eq]
    rw [ih ra (a + 1) rest (by omega)]
    have hlt : a < ra - 1 := by omega
    simp [hlt, ClientResult.mk.injEq, List.length_cons]

theorem updateGo_immediate_failure (ra : ℕ) (s : ℕ) (rest : List UpdOutcome)
    (hra : 0 < ra) (hs200 : s ≠ 200) (hs401 : s ≠ 401) :
    updateGo ra 0 (UpdOutcome.resp s :: rest) = ⟨false, 1, 0, 0⟩ := by
  simp only [updateGo, if_pos hra, if_neg hs200, if_neg hs401]

theorem get_devices_single_attempt (o : GetOutcome) (rest : List GetOutcome) :
    (get_devices (o :: rest)).2 = 1 := by
  rcases o with ⟨s, body⟩ | m
  · simp only [get_devices]
    split <;> rfl
  · rfl

end APIClient

/-- A concrete device configuration (the `device_router_01` example of
`create_default_config`, with the `__post_init__` default thresholds), used
as the instantiation point of the witness theorems. -/
def exampleRouterConfig : DeviceConfig :=
  ⟨"device_router_01", "Main Router", "router", "192.168.1.1", 10,
   default_critical_thresholds, default_warning_thresholds⟩

/-- C1: for every metric map, response time, and critical/warning threshold
maps, when no error is present, if any metric whose name appears in the
critical-threshold map has a value greater than or equal to its critical
threshold, then `determine_status` returns "critical", regardless of any
other metrics that simultaneously breach only warning thresholds. -/
theorem C1_critical_threshold_forces_critical (cfg : DeviceConfig)
    (st : MonitorState) (metrics : Dict) (rt : ℚ)
    (h : ∃ p ∈ metrics, ∃ t, dictGet cfg.critical_thresholds p.1 = some t ∧
      t ≤ p.2) :
    (determine_status cfg st metrics rt none).1 = "critical" := by
  have hb : thresholdBreach cfg.critical_thresholds metrics = true := by
    rcases h with ⟨p, hp, t, ht, hle⟩
    refine List.any_eq_true.mpr ⟨p, hp, ?_⟩
    rw [ht]
    exact decide_eq_true hle
  have ht : truthy none = false := rfl
  simp only [determine_status, ht, Bool.false_eq_true, if_false, hb, if_true]

/-- Witness for C1: `cpu_usage = 95` breaches its critical threshold 90
while `memory_usage = 80` breaches only its warning threshold 75; the status
is nevertheless "critical". -/
theorem C1_witness :
    (determine_status exampleRouterConfig initialMonitorState
      [("cpu_usage", 95), ("memory_usage", 80)] 10 none).1 = "critical" :=
  C1_critical_threshold_forces_critical exampleRouterConfig
    initialMonitorState [("cpu_usage", 95), ("memory_usage", 80)] 10
    ⟨("cpu_usage", 95), by simp, 90, by rfl, by norm_num⟩

/-- C2: starting from a consecutive-failure counter of zero, three
consecutive invocations of `determine_status` with an error present return
"warning", "warning", then "offline"; and any invocation with no error
present resets the counter to zero. -/
theorem C2_three_failures_offline_and_reset (cfg : DeviceConfig)
    (m1 m2 m3 : Dict) (r1 r2 r3 : ℚ) (e1 e2 e3 : String)
    (h1 : e1 ≠ "") (h2 : e2 ≠ "") (h3 : e3 ≠ "") :
    ((determine_status cfg initialMonitorState m1 r1 (some e1)).1 = "warning" ∧
     (determine_status cfg
        (determine_status cfg initialMonitorState m1 r1 (some e1)).2
        m2 r2 (some e2)).1 = "warning" ∧
     (determine_status cfg
        (determine_status cfg
          (determine_status cfg initialMonitorState m1 r1 (some e1)).2
          m2 r2 (some e2)).2
        m3 r3 (some e3)).1 = "offline") ∧
    (∀ (st : MonitorState) (m : Dict) (r : ℚ),
      ((determine_status cfg st m r none).2).consecutive_failures = 0) := by
  have s1 : determine_status cfg initialMonitorState m1 r1 (some e1) =
      ("warning", ⟨1, 3⟩) := by
    rw [determine_status_error _ _ _ _ _ h1]
    simp [initialMonitorState]
  have s2 : determine_status cfg (⟨1, 3⟩ : MonitorState) m2 r2 (some e2) =
      ("warning", ⟨2, 3⟩) := by
    rw [determine_status_error _ _ _ _ _ h2]
    simp
  have s3 : determine_status cfg (⟨2, 3⟩ : MonitorState) m3 r3 (some e3) =
      ("offline", ⟨3, 3⟩) := by
    rw [determine_status_error _ _ _ _ _ h3]
    simp
  refine ⟨⟨?_, ?_, ?_⟩, ?_⟩
  · rw [s1]
  · simp [s1, s2]
  · simp [s1, s2, s3]
  · intro st m r
    rw [determine_status_reset]

/-- Witness for C2: three consecutive errored checks starting at counter 0
give warning, warning, offline; a later error-free check resets. -/
theorem C2_witness :
    ((determine_status exampleRouterConfig initialMonitorState [] 0
        (some "connection refused")).1 = "warning" ∧
     (determine_status exampleRouterConfig
        (determine_status exampleRouterConfig initialMonitorState [] 0
          (some "connection refused")).2
        [] 0 (some "connection refused")).1 = "warning" ∧
     (determine_status exampleRouterConfig
        (determine_status exampleRouterConfig
          (determine_status exampleRouterConfig initialMonitorState [] 0
            (some "connection refused")).2
          [] 0 (some "connection refused")).2
        [] 0 (some "connection refused")).1 = "offline") ∧
    ((determine_status exampleRouterConfig ⟨5, 3⟩ [] 0
        none).2).consecutive_failures = 0 := by
  have h := C2_three_failures_offline_and_reset exampleRouterConfig [] [] []
    0 0 0 "connection refused" "connection refused" "connection refused"
    (by decide) (by decide) (by decide)
  exact ⟨h.1, h.2 ⟨5, 3⟩ [] 0⟩

/-- Concrete per-probe samples used by witness theorems. -/
def sampleOnline : DeviceMetrics :=
  ⟨"device_router_01", "online", [("latency", 5)], 10, none, "ping"⟩

/-- Concrete warning sample (shares the key `cpu_usage` with
`sampleCritical`). -/
def sampleWarning : DeviceMetrics :=
  ⟨"device_router_01", "warning", [("cpu_usage", 75)], 20, none, "snmp"⟩

/-- Concrete critical sample. -/
def sampleCritical : DeviceMetrics :=
  ⟨"device_router_01", "critical", [("cpu_usage", 95), ("latency", 7)], 30,
   some "overload", "http"⟩

/-- C3: for every non-empty list of per-probe samples whose statuses are
among {offline, critical, warning, online}, the status of the aggregated
sample equals the worst contributing status under the total order
offline < critical < warning < online (rank 0..3), and when several samples
share that worst rank the first in probe order is selected. -/
theorem C3_worst_status_first_occurrence (r : DeviceMetrics)
    (rs : List DeviceMetrics)
    (hval : (r :: rs).all (fun x => validStatus x.status) = true) :
    ∃ c w, combine_monitoring_results (r :: rs) = some c ∧
      (∀ x ∈ r :: rs, minRankOf r rs ≤ statusPriority x.status) ∧
      (r :: rs).find?
        (fun x => statusPriority x.status == minRankOf r rs) = some w ∧
      c.status = w.status := by
  refine ⟨_, pyMinBy (fun x => statusPriority x.status) r rs, rfl, ?_, ?_, rfl⟩
  · intro x hx
    rcases List.mem_cons.mp hx with h | h
    · subst h
      exact foldl_min_le_init _ rs _
    · exact foldl_min_le_mem _ rs x _ h
  · exact find?_first_min (fun x => statusPriority x.status) r rs

/-- Witness for C3: samples online, critical, warning aggregate to
"critical", the first sample of minimal rank 1. -/
theorem C3_witness :
    ((sampleOnline :: [sampleCritical, sampleWarning]).all
      (fun x => validStatus x.status) = true) ∧
    (∃ c w, combine_monitoring_results
        (sampleOnline :: [sampleCritical, sampleWarning]) = some c ∧
      (∀ x ∈ sampleOnline :: [sampleCritical, sampleWarning],
        minRankOf sampleOnline [sampleCritical, sampleWarning] ≤
          statusPriority x.status) ∧
      (sampleOnline :: [sampleCritical, sampleWarning]).find?
        (fun x => statusPriority x.status ==
          minRankOf sampleOnline [sampleCritical, sampleWarning]) = some w ∧
      c.status = w.status) :=
  ⟨by decide,
   C3_worst_status_first_occurrence sampleOnline [sampleCritical, sampleWarning]
     (by decide)⟩

/-- C7: for every non-empty list of per-probe samples, a key is present in
the aggregated metric map exactly when it is present in some contributing
sample (key set = union), and its aggregated value is the one from the
sample occurring last in probe order among those containing the key
(expressed by looking the key up in the reversed sample list). -/
theorem C7_metrics_union_last_wins (r : DeviceMetrics)
    (rs : List DeviceMetrics) (k : String)
    (h : ∀ x ∈ r :: rs, nodupKeys x.metrics) :
    ∃ c, combine_monitoring_results (r :: rs) = some c ∧
      dictGet c.metrics k =
        (r :: rs).reverse.findSome? (fun x => dictGet x.metrics k) ∧
      dictContains c.metrics k =
        (r :: rs).any (fun x => dictContains x.metrics k) := by
  refine ⟨_, rfl, ?_, ?_⟩
  · have hfold := dictGet_fold_update (r :: rs) [] k h
    rw [show dictGet ([] : Dict) k = none from rfl, orOpt_none_right] at hfold
    exact hfold
  · have hfold := dictGet_fold_update (r :: rs) [] k h
    rw [show dictGet ([] : Dict) k = none from rfl, orOpt_none_right] at hfold
    show (dictGet ((r :: rs).foldl (fun acc x => dictUpdate acc x.metrics) []) k).isSome = _
    rw [hfold, isSome_findSome?, any_reverse]
    rfl

/-- Witness for C7: `cpu_usage` occurs in both the warning (75) and the
critical (95) sample; the aggregated value is 95, from the later sample. -/
theorem C7_witness :
    (∀ x ∈ sampleWarning :: [sampleCritical], nodupKeys x.metrics) ∧
    (∃ c, combine_monitoring_results (sampleWarning :: [sampleCritical]) =
        some c ∧
      dictGet c.metrics "cpu_usage" =
        (sampleWarning :: [sampleCritical]).reverse.findSome?
          (fun x => dictGet x.metrics "cpu_usage") ∧
      dictContains c.metrics "cpu_usage" =
        (sampleWarning :: [sampleCritical]).any
          (fun x => dictContains x.metrics "cpu_usage")) :=
  ⟨by decide, C7_metrics_union_last_wins sampleWarning [sampleCritical]
    "cpu_usage" (by decide)⟩

theorem ping_check_status_eq (cfg : DeviceConfig) (st : MonitorState)
    (o : PingOutcome) (w : ℚ) :
    ((PingMonitor.check_device cfg st o w).1).status =
      (determine_status cfg st
        ((PingMonitor.check_device cfg st o w).1).metrics
        ((PingMonitor.check_device cfg st o w).1).response_time
        ((PingMonitor.check_device cfg st o w).1).last_error).1 := by
  cases o <;> rfl

theorem ping_fresh_ne_offline (cfg : DeviceConfig) (o : PingOutcome) (w : ℚ) :
    ((PingMonitor.check_device cfg initialMonitorState o w).1).status ≠
      "offline" := by
  rw [ping_check_status_eq]
  exact fresh_status_ne_offline cfg _ _ _

/-- C4: for every device configuration and every outcome of the underlying
network operations (success, non-zero exit, timeout, or exception), each
probe's `check_device` always returns a sample — the embedded functions are
total — and every failure outcome is recorded in the returned sample's
error field.  The SNMP probe is covered on both paths: the SNMP-available
path (hard gathering failure) and the SNMP-unavailable ping fallback. -/
theorem C4_probes_capture_failures (cfg : DeviceConfig) (st : MonitorState)
    (wallMs : ℚ) :
    (∀ o : PingOutcome, pingFailureOutcome o = true →
      ((PingMonitor.check_device cfg st o wallMs).1).last_error.isSome =
        true) ∧
    (∀ msg : String,
      ((SNMPMonitor.check_device_snmp cfg st (.exc msg)
        wallMs).1).last_error.isSome = true) ∧
    (∀ o : PingOutcome, pingFailureOutcome o = true →
      (SNMPMonitor.fallback_to_ping cfg o wallMs).last_error.isSome = true) ∧
    (∀ o : HTTPMonitor.HttpOutcome, httpFailureOutcome o = true →
      ((HTTPMonitor.check_device cfg st o wallMs).1).last_error.isSome =
        true) := by
  refine ⟨?_, ?_, ?_, ?_⟩
  · intro o ho
    cases o with
    | success s => simp [pingFailureOutcome] at ho
    | failure s => rfl
    | timeout => rfl
    | exc m => rfl
  · intro msg
    rfl
  · intro o ho
    cases o with
    | success s => simp [pingFailureOutcome] at ho
    | failure s => rfl
    | timeout => rfl
    | exc m => rfl
  · intro o ho
    cases o with
    | response status reason body =>
      have hne : ¬ status = 200 := by
        simp only [httpFailureOutcome, Bool.or_eq_true, decide_eq_true_eq]
          at ho
        omega
      simp [HTTPMonitor.check_device, hne]
    | timeout => rfl
    | exc m => rfl

/-- Witness for C4: a ping timeout, an SNMP gathering exception, a fallback
ping timeout and an HTTP 503 all produce samples with the error field set. -/
theorem C4_witness :
    ((PingMonitor.check_device exampleRouterConfig initialMonitorState
        .timeout 5).1).last_error.isSome = true ∧
    ((SNMPMonitor.check_device_snmp exampleRouterConfig initialMonitorState
        (.exc "no SNMP response received") 5).1).last_error.isSome = true ∧
    (SNMPMonitor.fallback_to_ping exampleRouterConfig .timeout
        5).last_error.isSome = true ∧
    ((HTTPMonitor.check_device exampleRouterConfig initialMonitorState
        (.response 503 "Service Unavailable" (.text "")) 5).1).last_error.isSome =
      true := by
  have h := C4_probes_capture_failures exampleRouterConfig
    initialMonitorState 5
  exact ⟨h.1 .timeout rfl, h.2.1 "no SNMP response received",
    h.2.2.1 .timeout rfl,
    h.2.2.2 (.response 503 "Service Unavailable" (.text "")) rfl⟩

/-- C9: for the HTTP probe, every transport error (timeout or exception)
and every response whose status code is not in the 2xx range yields a
sample whose error field is set and whose metric map is empty. -/
theorem C9_http_failures_error_and_empty_metrics (cfg : DeviceConfig)
    (st : MonitorState) (o : HTTPMonitor.HttpOutcome) (wallMs : ℚ)
    (ho : httpFailureOutcome o = true) :
    ((HTTPMonitor.check_device cfg st o wallMs).1).last_error.isSome = true ∧
    ((HTTPMonitor.check_device cfg st o wallMs).1).metrics = [] := by
  cases o with
  | response status reason body =>
    have hne : ¬ status = 200 := by
      simp only [httpFailureOutcome, Bool.or_eq_true, decide_eq_true_eq] at ho
      omega
    constructor
    · simp [HTTPMonitor.check_device, hne]
    · simp [HTTPMonitor.check_device, hne]
  | timeout => exact ⟨rfl, rfl⟩
  | exc m => exact ⟨rfl, rfl⟩

/-- Witness for C9: an HTTP 500 response yields an error sample with empty
metrics. -/
theorem C9_witness :
    ((HTTPMonitor.check_device exampleRouterConfig initialMonitorState
        (.response 500 "Internal Server Error" (.text "cpu: 12%")) 5).1).last_error.isSome =
      true ∧
    ((HTTPMonitor.check_device exampleRouterConfig initialMonitorState
        (.response 500 "Internal Server Error" (.text "cpu: 12%")) 5).1).metrics =
      [] :=
  C9_http_failures_error_and_empty_metrics exampleRouterConfig
    initialMonitorState (.response 500 "Internal Server Error" (.text "cpu: 12%"))
    5 rfl

/-- C10: every sample returned by the SNMP probe's ping fallback is
produced by a freshly constructed `PingMonitor` whose consecutive-failure
counter starts at zero (see `SNMPMonitor.fallback_to_ping`), so over any
sequence of consecutive fallback invocations for the same device, no
produced sample ever has status "offline". -/
theorem C10_fallback_never_offline (cfg : DeviceConfig)
    (calls : List (PingOutcome × ℚ)) :
    ((calls.map (fun c => SNMPMonitor.fallback_to_ping cfg c.1 c.2)).all
      (fun r => r.status != "offline")) = true := by
  induction calls with
  | nil => rfl
  | cons c cs ih =>
    simp only [List.map_cons, List.all_cons, ih, Bool.and_true]
    have hne : (SNMPMonitor.fallback_to_ping cfg c.1 c.2).status ≠
        "offline" := by
      have hst : (SNMPMonitor.fallback_to_ping cfg c.1 c.2).status =
          ((PingMonitor.check_device cfg initialMonitorState c.1 c.2).1).status := by
        simp [SNMPMonitor.fallback_to_ping]
      rw [hst]
      exact ping_fresh_ne_offline cfg c.1 c.2
    simp [bne_iff_ne, hne]

/-- C6: when `update_device` receives a 401 on an attempt (with at least two
configured retry attempts), the client re-authenticates exactly once
(`reauths = 1`) and retries the same update; the retry's 200 makes the call
succeed after exactly two requests and no retry delay. -/
theorem C6_reauth_once_then_retry (ra : ℕ) (rest : List APIClient.UpdOutcome)
    (hra : 2 ≤ ra) :
    APIClient.update_device ra
      (APIClient.UpdOutcome.resp 401 :: APIClient.UpdOutcome.resp 200 :: rest) =
      ⟨true, 2, 0, 1⟩ := by
  have h0 : 0 < ra := by omega
  have h1 : 1 < ra := by omega
  simp [APIClient.update_device, APIClient.updateGo, h0, h1]

/-- Witness for C6 at the default configuration `retry_attempts = 3`. -/
theorem C6_witness :
    (2 : ℕ) ≤ 3 ∧
    APIClient.update_device 3
      [APIClient.UpdOutcome.resp 401, APIClient.UpdOutcome.resp 200] =
      ⟨true, 2, 0, 1⟩ :=
  ⟨by norm_num, C6_reauth_once_then_retry 3 [] (by norm_num)⟩

/-- Counterexample to C5 as stated: `get_devices` is *not* retried.  With
the default `retry_attempts = 3`, a first attempt failing with a transport
exception makes the client report failure (an empty device list) after a
single request, even though a second attempt would have returned the
device list. -/
theorem C5_counterexample :
    APIClient.get_devices
      [APIClient.GetOutcome.exc "connection reset",
       APIClient.GetOutcome.resp 200 ["device_router_01"]] = ([], 1) ∧
    (1 : ℕ) < 3 := by
  exact ⟨rfl, by norm_num⟩

/-- C5 amended: `create_device` and `update_device` are retried up to the
configured attempt count, with the fixed delay slept between consecutive
attempts, when attempts fail with transport exceptions (update also
consumes an attempt on a 401, without delay — see C6); an attempt that
yields any other non-success response reports failure immediately without
further retries; and `get_devices` makes exactly one request, reporting an
empty list on any failure. -/
theorem C5_amended_retry_behaviour (ra : ℕ) :
    (∀ (o : APIClient.GetOutcome) (rest : List APIClient.GetOutcome),
      (APIClient.get_devices (o :: rest)).2 = 1) ∧
    (∀ msgs : List String, msgs.length = ra →
      APIClient.create_device ra (msgs.map APIClient.CreateOutcome.exc) =
        ⟨false, ra, ra - 1, 0⟩) ∧
    (∀ (msgs : List String) (rest : List APIClient.CreateOutcome),
      msgs.length < ra →
      APIClient.create_device ra
        (msgs.map APIClient.CreateOutcome.exc ++
          APIClient.CreateOutcome.resp 200 :: rest) =
        ⟨true, msgs.length + 1, msgs.length, 0⟩) ∧
    (∀ (s : ℕ) (rest : List APIClient.CreateOutcome), 0 < ra → s ≠ 200 →
      APIClient.create_device ra (APIClient.CreateOutcome.resp s :: rest) =
        ⟨false, 1, 0, 0⟩) ∧
    (∀ msgs : List String, msgs.length = ra →
      APIClient.update_device ra (msgs.map APIClient.UpdOutcome.exc) =
        ⟨false, ra, ra - 1, 0⟩) ∧
    (∀ (msgs : List String) (rest : List APIClient.UpdOutcome),
      msgs.length < ra →
      APIClient.update_device ra
        (msgs.map APIClient.UpdOutcome.exc ++
          APIClient.UpdOutcome.resp 200 :: rest) =
        ⟨true, msgs.length + 1, msgs.length, 0⟩) ∧
    (∀ (s : ℕ) (rest : List APIClient.UpdOutcome), 0 < ra → s ≠ 200 →
      s ≠ 401 →
      APIClient.update_device ra (APIClient.UpdOutcome.resp s :: rest) =
        ⟨false, 1, 0, 0⟩) := by
  refine ⟨?_, ?_, ?_, ?_, ?_, ?_, ?_⟩
  · intro o rest
    exact APIClient.get_devices_single_attempt o rest
  · intro msgs h
    have := APIClient.createGo_all_exc msgs ra 0 (by omega)
    rw [APIClient.create_device, this, h]
  · intro msgs rest h
    exact APIClient.createGo_success_after msgs ra 0 rest (by omega)
  · intro s rest hra hs
    exact APIClient.createGo_immediate_failure ra s rest hra hs
  · intro msgs h
    have := APIClient.updateGo_all_exc msgs ra 0 (by omega)
    rw [APIClient.update_device, this, h]
  · intro msgs rest h
    exact APIClient.updateGo_success_after msgs ra 0 rest (by omega)
  · intro s rest hra hs200 hs401
    exact APIClient.updateGo_immediate_failure ra s rest hra hs200 hs401

/-- Witness for the amended C5 at the default `retry_attempts = 3`. -/
theorem C5_amended_witness :
    (APIClient.get_devices [APIClient.GetOutcome.resp 500 []]).2 = 1 ∧
    APIClient.create_device 3
      (["a", "b", "c"].map APIClient.CreateOutcome.exc) = ⟨false, 3, 2, 0⟩ ∧
    APIClient.create_device 3
      (["a"].map APIClient.CreateOutcome.exc ++
        APIClient.CreateOutcome.resp 200 :: []) = ⟨true, 2, 1, 0⟩ ∧
    APIClient.create_device 3 [APIClient.CreateOutcome.resp 500] =
      ⟨false, 1, 0, 0⟩ ∧
    APIClient.update_device 3
      (["a", "b", "c"].map APIClient.UpdOutcome.exc) = ⟨false, 3, 2, 0⟩ ∧
    APIClient.update_device 3
      (["a"].map APIClient.UpdOutcome.exc ++
        APIClient.UpdOutcome.resp 200 :: []) = ⟨true, 2, 1, 0⟩ ∧
    APIClient.update_device 3 [APIClient.UpdOutcome.resp 500] =
      ⟨false, 1, 0, 0⟩ := by
  have h := C5_amended_retry_behaviour 3
  exact ⟨h.1 _ _, h.2.1 ["a", "b", "c"] rfl,
    h.2.2.1 ["a"] [] (by norm_num), h.2.2.2.1 500 [] (by norm_num) (by norm_num),
    h.2.2.2.2.1 ["a", "b", "c"] rfl,
    h.2.2.2.2.2.1 ["a"] [] (by norm_num),
    h.2.2.2.2.2.2 500 [] (by norm_num) (by norm_num) (by norm_num)⟩

/-- The spec's C8 scenario ping transcript: a successful ping whose output
contains a line with `time=23.4 ms` and a line with `0% packet loss`. -/
def examplePingOutput : String :=
  "64 bytes from 192.168.1.1: icmp_seq=1 ttl=64 time=23.4 ms\n3 packets transmitted, 3 received, 0% packet loss, time 2002ms"

set_option maxRecDepth 100000 in
/-- C8: for a successful ping whose textual output contains a line with
`time=23.4 ms` and a line with `0% packet loss`, the produced sample has
metrics {latency: 23.4, packet_loss: 0, uptime: 100} and, with a
consecutive-failure counter of zero and the default threshold maps, status
"online". -/
theorem C8_ping_scenario :
    (PingMonitor.check_device exampleRouterConfig initialMonitorState
      (.success examplePingOutput) 50).1.metrics =
      [("latency", 117/5), ("packet_loss", 0), ("uptime", 100)] ∧
    (PingMonitor.check_device exampleRouterConfig initialMonitorState
      (.success examplePingOutput) 50).1.status = "online" := by
  have hcd : (PingMonitor.check_device exampleRouterConfig
      initialMonitorState (.success examplePingOutput) 50).1 =
      ⟨"device_router_01", "online",
       [("latency", 117/5), ("packet_loss", 0), ("uptime", 100)],
       117/5, none, "ping"⟩ := by
    have hparse : PingMonitor.parse_ping_output examplePingOutput =
        ((23 : ℚ) + 4 / 10 ^ 1, 0) := rfl
    have hq : ((23 : ℚ) + 4 / 10 ^ 1) = 117 / 5 := by norm_num
    rw [hq] at hparse
    simp only [PingMonitor.check_device, hparse]
    rw [if_pos (by norm_num : (117/5 : ℚ) > 0),
        if_pos (by norm_num : (0 : ℚ) < 100)]
    have hb1 : thresholdBreach exampleRouterConfig.critical_thresholds
        [("latency", (117/5 : ℚ)), ("packet_loss", 0), ("uptime", 100)] =
        false := rfl
    have hb2 : thresholdBreach exampleRouterConfig.warning_thresholds
        [("latency", (117/5 : ℚ)), ("packet_loss", 0), ("uptime", 100)] =
        false := rfl
    have hd1 : dictGetD exampleRouterConfig.critical_thresholds
        "response_time" 5000 = 5000 := rfl
    have hd2 : dictGetD exampleRouterConfig.warning_thresholds
        "response_time" 2000 = 2000 := rfl
    simp only [determine_status, truthy, Bool.false_eq_true, if_false,
      hb1, hb2, hd1, hd2]
    rw [if_neg (by norm_num : ¬ (5000 : ℚ) ≤ 117/5),
        if_neg (by norm_num : ¬ (2000 : ℚ) ≤ 117/5)]
    rfl
  rw [hcd]
  exact ⟨rfl, rfl⟩
